import Mathlib

/-!
Verification of the Broker Connection Lifecycle and Credential Vault subsystem
(Express routes in `server/routes/broker.js`, i.e. `src/unnamed/part_000`, and the
dashboard aggregator in `src/components/dashboard/Positions.tsx`).

Modelling conventions:
* The SQLite table `broker_connections` is a list of `BrokerConnection` records;
  `NULL`-able columns are `Option` fields.  The bookkeeping timestamp columns
  (`created_at`, `updated_at`, `last_sync`) are not modelled: no verified claim
  reads them, and row order is irrelevant to every property below.
* JavaScript truthiness on strings (falsy iff empty) and on numbers (falsy iff 0)
  is made explicit via `jsOrStr` / `jsOrInt` and explicit emptiness tests.
* Numeric price fields (floats in JavaScript) are modelled as integers; no
  verified property depends on floating-point arithmetic.
* Epoch times are integers (seconds).  JavaScript `Date` local-time arithmetic is
  modelled for a fixed-offset time zone `tz` (seconds east of UTC; IST = 19800),
  which has no daylight-saving transitions.
-/

/-- The credential vault interface (`encryptData` / `decryptData` from
`src/utils/encryption.js`, a module whose source is not included). -/
structure Vault where
  encrypt : String → String
  decrypt : String → String
deriving Inhabited

/-- Modelled from the spec: the Credential Vault of `src/utils/encryption.js`
(not under `src/`; only its callers are).  The spec contract is a symmetric
cipher with a process-wide secret key and a deterministic round-trip
`decrypt (encrypt x) = x`.  It is modelled as a reversible keyed transformation:
`encrypt` prepends the key material, `decrypt` strips it. -/
def specVault (key : String) : Vault where
  encrypt s := String.mk (key.data ++ s.data)
  decrypt s := String.mk (s.data.drop key.data.length)

theorem specVault_roundtrip (key x : String) :
    (specVault key).decrypt ((specVault key).encrypt x) = x := by
  cases x with
  | mk d => simp [specVault]

/-- One row of the `broker_connections` table. -/
structure BrokerConnection where
  id : Nat
  userId : Nat
  brokerName : String
  connectionName : String
  apiKey : String
  apiSecret : String
  userIdBroker : String
  webhookUrl : String
  accessToken : Option String
  publicToken : Option String
  accessTokenExpiresAt : Option Int
  isActive : Bool
deriving Repr, DecidableEq

/-- The `broker_connections` table. -/
abbrev DB := List BrokerConnection

/-- JavaScript `a || d` for an optional string `a` (falsy iff missing or empty). -/
def jsOrStr : Option String → String → String
  | none, d => d
  | some s, d => if s = "" then d else s

/-- JavaScript `a || d` for an optional number `a` (falsy iff missing or zero). -/
def jsOrInt : Option Int → Int → Int
  | none, d => d
  | some v, d => if v = 0 then d else v

/-- Derived column from the `/connections` query:
`CASE WHEN access_token IS NOT NULL AND access_token != '' THEN 1 ELSE 0 END`. -/
def is_authenticated (c : BrokerConnection) : Bool :=
  match c.accessToken with
  | none => false
  | some t => decide (t ≠ "")

/-- Derived flag from the `/connections` route:
`conn.access_token_expires_at && conn.access_token_expires_at < now`
(the conjunction is JavaScript `&&`, so a missing or zero expiry is falsy). -/
def token_expired (e : Option Int) (now : Int) : Bool :=
  match e with
  | none => false
  | some v => decide (v ≠ 0) && decide (v < now)

/-- Derived flag from the `/connections` route:
`conn.access_token_expires_at && (conn.access_token_expires_at - now) < 3600`.
Note the source imposes no lower bound on the difference. -/
def needs_token_refresh (e : Option Int) (now : Int) : Bool :=
  match e with
  | none => false
  | some v => decide (v ≠ 0) && decide (v - now < 3600)

/-- The enhanced connection object returned by `GET /connections`. -/
structure ConnectionView where
  id : Nat
  broker_name : String
  connection_name : String
  is_active : Bool
  webhook_url : String
  access_token_expires_at : Option Int
  is_authenticated : Bool
  token_expired : Bool
  needs_token_refresh : Bool
deriving Repr, DecidableEq

/-- `GET /connections`: all rows of the caller, with the derived fields computed
against the current time (row order is not modelled). -/
def listConnections (db : DB) (uid : Nat) (now : Int) : List ConnectionView :=
  (db.filter fun c => c.userId == uid).map fun c =>
    { id := c.id
      broker_name := c.brokerName
      connection_name := c.connectionName
      is_active := c.isActive
      webhook_url := c.webhookUrl
      access_token_expires_at := c.accessTokenExpiresAt
      is_authenticated := is_authenticated c
      token_expired := token_expired c.accessTokenExpiresAt now
      needs_token_refresh := needs_token_refresh c.accessTokenExpiresAt now }

/-- JavaScript `String.prototype.toLowerCase()` (ASCII range), written over the
character list so that concrete instances evaluate in the kernel. -/
def jsToLower (s : String) : String := String.mk (s.data.map Char.toLower)

/-- Predicate of the limit query in `POST /connect`:
`SELECT COUNT(*) ... WHERE user_id = ? AND is_active = 1`. -/
def activeOwned (uid : Nat) (c : BrokerConnection) : Bool :=
  c.userId == uid && c.isActive

/-- Count of the active connections of a user. -/
def countActive (db : DB) (uid : Nat) : Nat :=
  (db.filter (activeOwned uid)).length

/-- Fresh row id for an insert (`result.lastID` of the SQLite autoincrement). -/
def freshId (db : DB) : Nat :=
  db.foldr (fun c m => max c.id m) 0 + 1

/-- Request body of `POST /connect`; a missing field is the empty string
(falsy, like `undefined`). -/
structure ConnectInput where
  brokerName : String
  apiKey : String
  apiSecret : String
  userIdBroker : String
  connectionName : Option String
deriving Repr, DecidableEq

/-- Outcome of `POST /connect`. -/
inductive ConnectResult where
  /-- 400: broker name, API key and API secret are required. -/
  | badRequest
  /-- 400: maximum 5 broker connections allowed per user. -/
  | limitExceeded
  /-- 500: failed to encrypt credentials (self-test or encryption threw). -/
  | encryptionFailure
  /-- 200 with the new connection id and the `requiresAuth` flag. -/
  | ok (connectionId : Nat) (requiresAuth : Bool)
deriving Repr, DecidableEq

/-- `POST /connect` (part_000 lines 805-900): validate the body, check the
per-user limit of 5 active connections, run the encryption self-test, encrypt
the credentials and insert the row.  The row stores no access token; the
schema default of the unmodelled `database/init.js` makes the row active on
creation (spec: `isActive` is true on creation).  `webhookUrl` (built from the
request host and a fresh UUID) and `nowMs` (`Date.now()`, used in the default
connection name) are passed in as parameters. -/
def connect (v : Vault) (db : DB) (uid : Nat) (inp : ConnectInput)
    (webhookUrl : String) (nowMs : Nat) : DB × ConnectResult :=
  if inp.brokerName = "" ∨ inp.apiKey = "" ∨ inp.apiSecret = "" then
    (db, .badRequest)
  else if 5 ≤ countActive db uid then
    (db, .limitExceeded)
  else
    let finalName := inp.connectionName.getD
      (inp.brokerName ++ " Connection " ++ toString nowMs)
    if v.decrypt (v.encrypt "test") ≠ "test" then
      (db, .encryptionFailure)
    else
      let cid := freshId db
      let newConn : BrokerConnection :=
        { id := cid
          userId := uid
          brokerName := jsToLower inp.brokerName
          connectionName := finalName
          apiKey := v.encrypt inp.apiKey
          apiSecret := v.encrypt inp.apiSecret
          userIdBroker := inp.userIdBroker
          webhookUrl := webhookUrl
          accessToken := none
          publicToken := none
          accessTokenExpiresAt := none
          isActive := true }
      (db ++ [newConn], .ok cid (jsToLower inp.brokerName == "zerodha"))

/-- Outcome of the row-level routes (`POST /disconnect`, `DELETE /connections/:id`). -/
inductive ApiResult where
  | ok
  | notFound
deriving Repr, DecidableEq

/-- Effect of the disconnect UPDATE on one row:
`SET is_active = 0 WHERE id = ? AND user_id = ?`. -/
def disconnectOne (uid cid : Nat) (c : BrokerConnection) : BrokerConnection :=
  if c.id == cid && c.userId == uid then { c with isActive := false } else c

/-- The disconnect UPDATE applied to the table. -/
def disconnectRun (db : DB) (uid cid : Nat) : DB :=
  db.map (disconnectOne uid cid)

/-- `POST /disconnect` (part_000 lines 1210-1224): runs the UPDATE and then
responds with success unconditionally — the affected-row count is never
inspected, so a missing id or an ownership mismatch still yields 200. -/
def disconnect (db : DB) (uid cid : Nat) : DB × ApiResult :=
  (disconnectRun db uid cid, .ok)

/-- Predicate of `WHERE id = ? AND user_id = ?`. -/
def matchesIdUser (cid uid : Nat) (c : BrokerConnection) : Bool :=
  c.id == cid && c.userId == uid

/-- `DELETE /connections/:id` (part_000 lines 1227-1245): hard delete with the
ownership filter; responds 404 exactly when `result.changes === 0`. -/
def deleteConnection (db : DB) (uid cid : Nat) : DB × ApiResult :=
  let changes := (db.filter (matchesIdUser cid uid)).length
  let db' := db.filter fun c => !(matchesIdUser cid uid c)
  if changes = 0 then (db', .notFound) else (db', .ok)

/-- Response of the broker token exchange (`kiteService.generateAccessToken`). -/
structure TokenResponse where
  access_token : String
  public_token : Option String
deriving Repr, DecidableEq

/-- Query string of `GET /auth/zerodha/callback`; absent parameters are `none`. -/
structure CallbackQuery where
  request_token : Option String
  action : Option String
  status : Option String
  connection_id : Option Nat
  reconnect : Option String
deriving Repr, DecidableEq

/-- Page rendered by the callback route. -/
inductive CallbackResult where
  /-- 400: authentication failed (bad action, status or missing request token). -/
  | authFailedPage
  /-- 400: connection id missing from the query. -/
  | missingConnectionIdPage
  /-- 404: connection not found. -/
  | connectionNotFoundPage
  /-- 500: the token exchange threw or returned no access token. -/
  | authErrorPage
  /-- 200: success page. -/
  | successPage
deriving Repr, DecidableEq

/-- JavaScript truthiness of an optional query-string value. -/
def truthyOptStr : Option String → Bool
  | none => false
  | some s => decide (s ≠ "")

/-- Expiry computed in the callback (part_000 lines 1123-1128):
`tomorrow = new Date(now); tomorrow.setDate(getDate() + 1);
tomorrow.setHours(6, 0, 0, 0)` — for a fixed-offset zone this is one calendar
day after the local day of `now`, at local 06:00:00, converted back to epoch
seconds. -/
def zerodhaTokenExpiry (tz now : Int) : Int :=
  ((now + tz) / 86400 + 1) * 86400 + 6 * 3600 - tz

/-- Modelled from the spec: `t` is the next calendar day 06:00 cutover in the
broker local time zone relative to `now`, for a fixed offset `tz` — the local
calendar day of `t` is the day after the local calendar day of `now`, and the
local time of day of `t` is 06:00:00. -/
def isNextDaySixLocalCutover (tz now t : Int) : Prop :=
  (t + tz) / 86400 = (now + tz) / 86400 + 1 ∧ (t + tz) % 86400 = 6 * 3600

/-- `GET /auth/zerodha/callback` (part_000 lines 1053-1207).  The route carries
no `authenticateToken` middleware and looks the connection up by
`connection_id` alone (`SELECT * FROM broker_connections WHERE id = ?`), so the
caller and the row owner are never compared.  `exchange` is the broker token
exchange (`kiteService.generateAccessToken`); `none` models a thrown error or
a response without `access_token`. -/
def zerodhaCallback (v : Vault)
    (exchange : String → String → String → Option TokenResponse)
    (tz now : Int) (db : DB) (q : CallbackQuery) : DB × CallbackResult :=
  if q.action ≠ some "login" ∨ q.status ≠ some "success" ∨
      truthyOptStr q.request_token = false then
    (db, .authFailedPage)
  else
    match q.connection_id with
    | none => (db, .missingConnectionIdPage)
    | some cid =>
      match db.find? (fun c => c.id == cid) with
      | none => (db, .connectionNotFoundPage)
      | some conn =>
        let apiKey := v.decrypt conn.apiKey
        let apiSecret := v.decrypt conn.apiSecret
        match exchange apiKey apiSecret (q.request_token.getD "") with
        | none => (db, .authErrorPage)
        | some r =>
          if r.access_token = "" then
            (db, .authErrorPage)
          else
            let publicToken := jsOrStr r.public_token ""
            let expiresAt := zerodhaTokenExpiry tz now
            (db.map fun c =>
              if c.id == cid then
                { c with
                    accessToken := some (v.encrypt r.access_token)
                    publicToken := some (v.encrypt publicToken)
                    accessTokenExpiresAt := some expiresAt
                    isActive := true }
              else c,
             .successPage)

/-- A broker connection as seen by the dashboard (`Positions.tsx` keeps the
list produced by `getConnections` filtered to
`conn.is_active && conn.is_authenticated`); only the fields the fetch loop
reads are modelled. -/
structure FrontConnection where
  id : Nat
  broker_name : String
deriving Repr, DecidableEq

/-- Raw position object of a per-connection API response, with every field the
formatting code (`Positions.tsx` lines 112-124) may read; absent fields are
`none`. -/
structure ApiPosition where
  symbol : Option String
  tradingsymbol : Option String
  exchange : Option String
  quantity : Option Int
  net_quantity : Option Int
  average_price : Option Int
  buy_price : Option Int
  price : Option Int
  current_price : Option Int
  last_price : Option Int
  ltp : Option Int
  pnl : Option Int
  unrealised : Option Int
  pnl_percentage : Option Int
  product : Option String
deriving Repr, DecidableEq

/-- A formatted position row of the dashboard. -/
structure Position where
  symbol : String
  exchange : String
  quantity : Int
  average_price : Int
  current_price : Int
  pnl : Int
  pnl_percentage : Int
  product : String
  last_updated : String
  broker_name : String
  connection_id : Nat
deriving Repr, DecidableEq

/-- The per-position formatting of `fetchPositionsData` (`Positions.tsx` lines
112-124), with the JavaScript `||` fallback chains made explicit.
`nowIso` is `new Date().toISOString()`. -/
def formatPosition (nowIso : String) (conn : FrontConnection)
    (p : ApiPosition) : Position :=
  { symbol := jsOrStr p.symbol (jsOrStr p.tradingsymbol "")
    exchange := jsOrStr p.exchange "NSE"
    quantity := jsOrInt p.quantity (jsOrInt p.net_quantity 0)
    average_price := jsOrInt p.average_price (jsOrInt p.buy_price (jsOrInt p.price 0))
    current_price := jsOrInt p.current_price (jsOrInt p.last_price (jsOrInt p.ltp 0))
    pnl := jsOrInt p.pnl (jsOrInt p.unrealised 0)
    pnl_percentage := jsOrInt p.pnl_percentage 0
    product := jsOrStr p.product "MIS"
    last_updated := nowIso
    broker_name := conn.broker_name
    connection_id := conn.id }

/-- The `for (const connection of activeConnections)` loop of
`fetchPositionsData`: each fetch runs in its own try block, so a throw from one
connection only records `connectionStatuses[id] = false` and the loop
continues; a success records `true` and appends the formatted positions (the
source guards the append with a length check, which is preserved here). -/
def fetchLoop (fetch : Nat → Except String (List ApiPosition)) (nowIso : String) :
    List FrontConnection → List Position × List (Nat × Bool)
  | [] => ([], [])
  | conn :: rest =>
    match fetch conn.id with
    | .error _ =>
      let (ps, sts) := fetchLoop fetch nowIso rest
      (ps, (conn.id, false) :: sts)
    | .ok raw =>
      let formatted := if 0 < raw.length then raw.map (formatPosition nowIso conn) else []
      let (ps, sts) := fetchLoop fetch nowIso rest
      (formatted ++ ps, (conn.id, true) :: sts)

/-- `fetchPositionsData` (`Positions.tsx` lines 90-148): narrow to the broker
filter, fan out one fetch per connection with per-connection fault isolation,
then drop zero-quantity rows.  Returns the merged positions and the
per-connection success map (an association list, insertion order). -/
def fetchPositionsData (fetch : Nat → Except String (List ApiPosition))
    (nowIso : String) (brokerConnections : List FrontConnection)
    (selectedBroker : String) : List Position × List (Nat × Bool) :=
  let selected := brokerConnections.filter fun c =>
    selectedBroker == "all" || toString c.id == selectedBroker
  if selected.isEmpty then ([], [])
  else
    let (allPositions, statuses) := fetchLoop fetch nowIso selected
    (allPositions.filter fun p => 0 < p.quantity.natAbs, statuses)

/-! ## Helper lemmas -/

theorem length_filter_split {α : Type} (l : List α) (p q : α → Bool) :
    (l.filter p).length
      = (l.filter fun a => p a && q a).length
        + (l.filter fun a => p a && !q a).length := by
  induction l with
  | nil => rfl
  | cons a l ih =>
    by_cases hp : p a = true <;> by_cases hq : q a = true <;>
      simp [List.filter_cons, hp, hq, ih] <;> omega

theorem activeOwned_disconnectOne (uid cid : Nat) (c : BrokerConnection) :
    activeOwned uid (disconnectOne uid cid c)
      = (activeOwned uid c && !(c.id == cid)) := by
  unfold activeOwned disconnectOne
  by_cases h1 : c.id = cid <;> by_cases h2 : c.userId = uid <;> simp [h1, h2]

theorem countActive_disconnectRun (db : DB) (uid cid : Nat) :
    countActive (disconnectRun db uid cid) uid
      = (db.filter fun c => activeOwned uid c && !(c.id == cid)).length := by
  unfold countActive disconnectRun
  rw [List.filter_map, List.length_map]
  exact congrArg List.length
    (List.filter_congr fun c _ => activeOwned_disconnectOne uid cid c)

theorem disconnectOne_idem (uid cid : Nat) (c : BrokerConnection) :
    disconnectOne uid cid (disconnectOne uid cid c) = disconnectOne uid cid c := by
  unfold disconnectOne
  by_cases h1 : c.id = cid <;> by_cases h2 : c.userId = uid <;> simp [h1, h2]

theorem needs_token_refresh_true_iff (e : Option Int) (now : Int) :
    needs_token_refresh e now = true
      ↔ ∃ v, e = some v ∧ v ≠ 0 ∧ v - now < 3600 := by
  cases e with
  | none => simp [needs_token_refresh]
  | some v => simp [needs_token_refresh]

theorem zerodhaCallback_success_eq (v : Vault)
    (exchange : String → String → String → Option TokenResponse)
    (tz now : Int) (db : DB) (q : CallbackQuery) (cid : Nat)
    (conn : BrokerConnection) (rt : String) (r : TokenResponse)
    (hact : q.action = some "login") (hst : q.status = some "success")
    (hrt : q.request_token = some rt) (hrtne : rt ≠ "")
    (hcid : q.connection_id = some cid)
    (hfind : db.find? (fun c => c.id == cid) = some conn)
    (hex : exchange (v.decrypt conn.apiKey) (v.decrypt conn.apiSecret) rt = some r)
    (hak : r.access_token ≠ "") :
    zerodhaCallback v exchange tz now db q =
      (db.map fun c =>
        if c.id == cid then
          { c with
              accessToken := some (v.encrypt r.access_token)
              publicToken := some (v.encrypt (jsOrStr r.public_token ""))
              accessTokenExpiresAt := some (zerodhaTokenExpiry tz now)
              isActive := true }
        else c,
       CallbackResult.successPage) := by
  unfold zerodhaCallback
  simp [hact, hst, hrt, hcid, hfind, hex, hak, truthyOptStr, hrtne]

theorem zerodhaCallback_failure_eq (v : Vault)
    (exchange : String → String → String → Option TokenResponse)
    (tz now : Int) (db : DB) (q : CallbackQuery) (cid : Nat)
    (conn : BrokerConnection) (rt : String)
    (hact : q.action = some "login") (hst : q.status = some "success")
    (hrt : q.request_token = some rt) (hrtne : rt ≠ "")
    (hcid : q.connection_id = some cid)
    (hfind : db.find? (fun c => c.id == cid) = some conn)
    (hex : exchange (v.decrypt conn.apiKey) (v.decrypt conn.apiSecret) rt = none ∨
      ∃ r, exchange (v.decrypt conn.apiKey) (v.decrypt conn.apiSecret) rt = some r ∧
        r.access_token = "") :
    zerodhaCallback v exchange tz now db q = (db, CallbackResult.authErrorPage) := by
  unfold zerodhaCallback
  rcases hex with hex | ⟨r, hex, hr⟩
  · simp [hact, hst, hrt, hcid, hfind, hex, truthyOptStr, hrtne]
  · simp [hact, hst, hrt, hcid, hfind, hex, hr, truthyOptStr, hrtne]

/-! ## Claim theorems -/

/-- Claim C1: for every plaintext x, decrypt (encrypt x) = x (deterministic
round trip of the spec-modelled vault), and the connect operation runs the
self-test (encrypt "test" then decrypt) before storing credentials: with any
vault whose self-test does not yield "test", connect leaves the table unchanged
(no record, hence no plaintext credential, is persisted), and — when the body
is valid and the caller is under the connection limit, so that the flow reaches
the self-test — it aborts with the internal encryption error. -/
theorem encrypt_roundtrip_and_connect_selftest :
    (∀ key x, (specVault key).decrypt ((specVault key).encrypt x) = x) ∧
    (∀ (v : Vault) (db : DB) (uid : Nat) (inp : ConnectInput)
        (wh : String) (nowMs : Nat),
      v.decrypt (v.encrypt "test") ≠ "test" →
      (connect v db uid inp wh nowMs).1 = db ∧
      (inp.brokerName ≠ "" → inp.apiKey ≠ "" → inp.apiSecret ≠ "" →
        countActive db uid < 5 →
        (connect v db uid inp wh nowMs).2 = ConnectResult.encryptionFailure)) := by
  refine ⟨specVault_roundtrip, ?_⟩
  intro v db uid inp wh nowMs hv
  constructor
  · unfold connect
    by_cases hA : inp.brokerName = "" ∨ inp.apiKey = "" ∨ inp.apiSecret = ""
    · rw [if_pos hA]
    · rw [if_neg hA]
      by_cases hB : 5 ≤ countActive db uid
      · rw [if_pos hB]
      · rw [if_neg hB, if_pos hv]
  · intro hb hk hs hlt
    unfold connect
    rw [if_neg (by push_neg; exact ⟨hb, hk, hs⟩), if_neg (by omega), if_pos hv]

/-- A vault whose self-test fails, for the C1 witness. -/
def brokenVault : Vault where
  encrypt s := s
  decrypt _ := "X"

theorem encrypt_roundtrip_and_connect_selftest_witness :
    brokenVault.decrypt (brokenVault.encrypt "test") ≠ "test" ∧
    (connect brokenVault [] 1
        { brokerName := "zerodha", apiKey := "ak", apiSecret := "as",
          userIdBroker := "u", connectionName := some "c" } "wh" 0).1 = [] ∧
    (connect brokenVault [] 1
        { brokerName := "zerodha", apiKey := "ak", apiSecret := "as",
          userIdBroker := "u", connectionName := some "c" } "wh" 0).2
      = ConnectResult.encryptionFailure := by
  have h := encrypt_roundtrip_and_connect_selftest.2 brokenVault [] 1
    { brokerName := "zerodha", apiKey := "ak", apiSecret := "as",
      userIdBroker := "u", connectionName := some "c" } "wh" 0 (by decide)
  exact ⟨by decide, h.1, h.2 (by decide) (by decide) (by decide) (by decide)⟩

/-- Claim C2: with a valid request body, create fails with LimitExceeded if and
only if the user already has 5 or more connections with `isActive = true`
(inactive connections do not count, since the limit query filters on
`is_active = 1`); and after disconnecting one of the 5 active connections of a
user at the limit, a subsequent create for the same user succeeds (given a
working vault). -/
theorem create_limitExceeded_iff (v : Vault) (db : DB) (uid : Nat)
    (inp : ConnectInput) (wh : String) (nowMs : Nat)
    (hb : inp.brokerName ≠ "") (hk : inp.apiKey ≠ "") (hs : inp.apiSecret ≠ "") :
    ((connect v db uid inp wh nowMs).2 = ConnectResult.limitExceeded ↔
      5 ≤ countActive db uid) ∧
    (∀ cid : Nat,
      (db.filter fun c => activeOwned uid c && c.id == cid).length = 1 →
      countActive db uid = 5 →
      v.decrypt (v.encrypt "test") = "test" →
      ∃ newId, (connect v (disconnectRun db uid cid) uid inp wh nowMs).2
        = ConnectResult.ok newId (jsToLower inp.brokerName == "zerodha")) := by
  have hA : ¬(inp.brokerName = "" ∨ inp.apiKey = "" ∨ inp.apiSecret = "") := by
    push_neg; exact ⟨hb, hk, hs⟩
  constructor
  · constructor
    · intro hres
      by_contra hlt
      rw [not_le] at hlt
      unfold connect at hres
      rw [if_neg hA, if_neg (by omega)] at hres
      by_cases hv : v.decrypt (v.encrypt "test") ≠ "test"
      · rw [if_pos hv] at hres; exact ConnectResult.noConfusion hres
      · rw [if_neg hv] at hres; exact ConnectResult.noConfusion hres
    · intro hge
      unfold connect
      rw [if_neg hA, if_pos hge]
  · intro cid hone hfive hv
    have hcount : countActive (disconnectRun db uid cid) uid = 4 := by
      rw [countActive_disconnectRun]
      have hsplit := length_filter_split db (activeOwned uid) (fun c => c.id == cid)
      unfold countActive at hfive
      omega
    refine ⟨freshId (disconnectRun db uid cid), ?_⟩
    unfold connect
    rw [if_neg hA, if_neg (by omega), if_neg (by simpa using hv)]

/-- Row template for the C2 witness: user 1 has five active connections. -/
def limitConn (i : Nat) : BrokerConnection where
  id := i
  userId := 1
  brokerName := "zerodha"
  connectionName := "c"
  apiKey := "k"
  apiSecret := "s"
  userIdBroker := "u"
  webhookUrl := "w"
  accessToken := none
  publicToken := none
  accessTokenExpiresAt := none
  isActive := true

/-- Table for the C2 witness. -/
def limitDb : DB := [limitConn 1, limitConn 2, limitConn 3, limitConn 4, limitConn 5]

/-- Body for the C2 witness. -/
def limitInp : ConnectInput where
  brokerName := "upstox"
  apiKey := "ak"
  apiSecret := "as"
  userIdBroker := "u"
  connectionName := some "c6"

theorem create_limitExceeded_iff_witness :
    (connect (specVault "vk") limitDb 1 limitInp "wh" 0).2
      = ConnectResult.limitExceeded ∧
    ∃ newId, (connect (specVault "vk") (disconnectRun limitDb 1 3) 1 limitInp "wh" 0).2
      = ConnectResult.ok newId (jsToLower limitInp.brokerName == "zerodha") := by
  have h := create_limitExceeded_iff (specVault "vk") limitDb 1 limitInp "wh" 0
    (by decide) (by decide) (by decide)
  exact ⟨h.1.mpr (by decide), h.2 3 (by decide) (by decide) (by decide)⟩

/-- Claim C3: on every successful completion of the OAuth callback (valid
request token and status, existing connection, successful token exchange), the
stored `accessTokenExpiresAt` is the next calendar day 06:00 local cutover in
epoch seconds (next local calendar day, local time of day 06:00:00), and
`tokenExpired` evaluated at exactly that instant is false. -/
theorem callback_expiry_next_day_six (v : Vault)
    (exchange : String → String → String → Option TokenResponse)
    (tz now : Int) (db : DB) (q : CallbackQuery) (cid : Nat)
    (conn : BrokerConnection) (rt : String) (r : TokenResponse)
    (hact : q.action = some "login") (hst : q.status = some "success")
    (hrt : q.request_token = some rt) (hrtne : rt ≠ "")
    (hcid : q.connection_id = some cid)
    (hfind : db.find? (fun c => c.id == cid) = some conn)
    (hex : exchange (v.decrypt conn.apiKey) (v.decrypt conn.apiSecret) rt = some r)
    (hak : r.access_token ≠ "") :
    (zerodhaCallback v exchange tz now db q).2 = CallbackResult.successPage ∧
    isNextDaySixLocalCutover tz now (zerodhaTokenExpiry tz now) ∧
    token_expired (some (zerodhaTokenExpiry tz now)) (zerodhaTokenExpiry tz now)
      = false ∧
    ∀ c' ∈ (zerodhaCallback v exchange tz now db q).1, c'.id = cid →
      c'.accessTokenExpiresAt = some (zerodhaTokenExpiry tz now) := by
  have heq := zerodhaCallback_success_eq v exchange tz now db q cid conn rt r
    hact hst hrt hrtne hcid hfind hex hak
  refine ⟨by rw [heq], ?_, ?_, ?_⟩
  · unfold isNextDaySixLocalCutover zerodhaTokenExpiry
    omega
  · simp [token_expired]
  · intro c' hc' hid
    rw [heq] at hc'
    obtain ⟨c, hc, rfl⟩ := List.mem_map.mp hc'
    by_cases h : c.id = cid
    · simp [h]
    · simp only [beq_iff_eq, if_neg h] at hid ⊢
      exact absurd hid h

/-- Helper table for the C3 witness. -/
def cbConn : BrokerConnection where
  id := 7
  userId := 2
  brokerName := "zerodha"
  connectionName := "c"
  apiKey := "k"
  apiSecret := "s"
  userIdBroker := "u"
  webhookUrl := "w"
  accessToken := none
  publicToken := none
  accessTokenExpiresAt := none
  isActive := true

/-- Query string for the C3 witness. -/
def cbQuery : CallbackQuery where
  request_token := some "rt"
  action := some "login"
  status := some "success"
  connection_id := some 7
  reconnect := none

/-- Token exchange stub for the C3 witness. -/
def cbExchange : String → String → String → Option TokenResponse :=
  fun _ _ _ => some { access_token := "tok", public_token := some "pub" }

theorem callback_expiry_next_day_six_witness :
    (zerodhaCallback (specVault "vk") cbExchange 19800 1700000000 [cbConn] cbQuery).2
      = CallbackResult.successPage ∧
    isNextDaySixLocalCutover 19800 1700000000 (zerodhaTokenExpiry 19800 1700000000) ∧
    token_expired (some (zerodhaTokenExpiry 19800 1700000000))
      (zerodhaTokenExpiry 19800 1700000000) = false := by
  have h := callback_expiry_next_day_six (specVault "vk") cbExchange 19800 1700000000
    [cbConn] cbQuery 7 cbConn "rt" { access_token := "tok", public_token := some "pub" }
    rfl rfl rfl (by decide) rfl (by decide) rfl (by decide)
  exact ⟨h.1, h.2.1, h.2.2.1⟩

/-- Claim C4: if the token exchange inside the OAuth callback fails (thrown
error, modelled as `none`, or a response without an access token), the route
reports the authentication-error page and the whole table — hence the prior
access token, public token, expiry and `isActive` of the connection — is left
completely unchanged: the token update is all-or-nothing. -/
theorem callback_exchange_failure_unchanged (v : Vault)
    (exchange : String → String → String → Option TokenResponse)
    (tz now : Int) (db : DB) (q : CallbackQuery) (cid : Nat)
    (conn : BrokerConnection) (rt : String)
    (hact : q.action = some "login") (hst : q.status = some "success")
    (hrt : q.request_token = some rt) (hrtne : rt ≠ "")
    (hcid : q.connection_id = some cid)
    (hfind : db.find? (fun c => c.id == cid) = some conn)
    (hex : exchange (v.decrypt conn.apiKey) (v.decrypt conn.apiSecret) rt = none ∨
      ∃ r, exchange (v.decrypt conn.apiKey) (v.decrypt conn.apiSecret) rt = some r ∧
        r.access_token = "") :
    zerodhaCallback v exchange tz now db q = (db, CallbackResult.authErrorPage) :=
  zerodhaCallback_failure_eq v exchange tz now db q cid conn rt
    hact hst hrt hrtne hcid hfind hex

/-- Table row for the C4 witness: a connection that already holds a token. -/
def cb4Conn : BrokerConnection where
  id := 9
  userId := 3
  brokerName := "zerodha"
  connectionName := "c"
  apiKey := "k"
  apiSecret := "s"
  userIdBroker := "u"
  webhookUrl := "w"
  accessToken := some "oldTok"
  publicToken := some "oldPub"
  accessTokenExpiresAt := some 1000
  isActive := true

/-- Query string for the C4 witness. -/
def cb4Query : CallbackQuery where
  request_token := some "rt"
  action := some "login"
  status := some "success"
  connection_id := some 9
  reconnect := none

theorem callback_exchange_failure_unchanged_witness :
    zerodhaCallback (specVault "vk") (fun _ _ _ => none) 19800 1700000000
        [cb4Conn] cb4Query = ([cb4Conn], CallbackResult.authErrorPage) :=
  callback_exchange_failure_unchanged (specVault "vk") (fun _ _ _ => none)
    19800 1700000000 [cb4Conn] cb4Query 9 cb4Conn "rt"
    rfl rfl rfl (by decide) rfl (by decide) (Or.inl rfl)

/-- Claim C10 (implicit): the OAuth callback route carries no authentication
middleware and applies no ownership check — the model of the route takes no
caller identity, a stored connection is resolved by `connection_id` alone, and
on a successful token exchange the new tokens are stored and `isActive` is set
to true unconditionally: in particular a previously disconnected connection
(`isActive = false`, arbitrary owner) is re-activated.  No hypothesis below
constrains `conn.userId` or `conn.isActive`. -/
theorem callback_no_ownership_reactivates (v : Vault)
    (exchange : String → String → String → Option TokenResponse)
    (tz now : Int) (db : DB) (q : CallbackQuery) (cid : Nat)
    (conn : BrokerConnection) (rt : String) (r : TokenResponse)
    (hact : q.action = some "login") (hst : q.status = some "success")
    (hrt : q.request_token = some rt) (hrtne : rt ≠ "")
    (hcid : q.connection_id = some cid)
    (hfind : db.find? (fun c => c.id == cid) = some conn)
    (hex : exchange (v.decrypt conn.apiKey) (v.decrypt conn.apiSecret) rt = some r)
    (hak : r.access_token ≠ "") :
    (zerodhaCallback v exchange tz now db q).2 = CallbackResult.successPage ∧
    ∀ c' ∈ (zerodhaCallback v exchange tz now db q).1, c'.id = cid →
      c'.isActive = true ∧
      c'.accessToken = some (v.encrypt r.access_token) ∧
      c'.publicToken = some (v.encrypt (jsOrStr r.public_token "")) := by
  have heq := zerodhaCallback_success_eq v exchange tz now db q cid conn rt r
    hact hst hrt hrtne hcid hfind hex hak
  refine ⟨by rw [heq], ?_⟩
  intro c' hc' hid
  rw [heq] at hc'
  obtain ⟨c, hc, rfl⟩ := List.mem_map.mp hc'
  by_cases h : c.id = cid
  · simp [h]
  · simp only [beq_iff_eq, if_neg h] at hid ⊢
    exact absurd hid h

/-- Table row for the C10 witness: a disconnected connection owned by user 4,
re-activated by a callback that authenticates nobody. -/
def cb10Conn : BrokerConnection where
  id := 11
  userId := 4
  brokerName := "zerodha"
  connectionName := "c"
  apiKey := "k"
  apiSecret := "s"
  userIdBroker := "u"
  webhookUrl := "w"
  accessToken := none
  publicToken := none
  accessTokenExpiresAt := none
  isActive := false

/-- Query string for the C10 witness. -/
def cb10Query : CallbackQuery where
  request_token := some "rt"
  action := some "login"
  status := some "success"
  connection_id := some 11
  reconnect := none

/-- Token exchange stub for the C10 witness. -/
def cb10Exchange : String → String → String → Option TokenResponse :=
  fun _ _ _ => some { access_token := "newTok", public_token := none }

theorem callback_no_ownership_reactivates_witness :
    (zerodhaCallback (specVault "vk") cb10Exchange 19800 1700000000
        [cb10Conn] cb10Query).2 = CallbackResult.successPage ∧
    ∀ c' ∈ (zerodhaCallback (specVault "vk") cb10Exchange 19800 1700000000
        [cb10Conn] cb10Query).1, c'.id = 11 →
      c'.isActive = true ∧
      c'.accessToken = some ((specVault "vk").encrypt "newTok") ∧
      c'.publicToken = some ((specVault "vk").encrypt (jsOrStr none "")) := by
  have h := callback_no_ownership_reactivates (specVault "vk") cb10Exchange
    19800 1700000000 [cb10Conn] cb10Query 11 cb10Conn "rt"
    { access_token := "newTok", public_token := none }
    rfl rfl rfl (by decide) rfl (by decide) rfl (by decide)
  exact h

theorem ite_length_map {α β : Type} (l : List α) (f : α → β) :
    (if 0 < l.length then l.map f else []) = l.map f := by
  cases l <;> simp

/-- Claim C5: in the aggregate position fetch over the selected connections, a
thrown error from one connection never fails the whole call: with three
selected connections of which exactly the middle fetch throws, the result is
exactly the formatted (and zero-quantity-filtered) positions of the other two,
and the per-connection status map marks the failing connection false and the
succeeding ones true. -/
theorem getPositions_fault_isolation
    (fetch : Nat → Except String (List ApiPosition)) (nowIso : String)
    (c1 c2 c3 : FrontConnection) (l1 l3 : List ApiPosition) (e : String)
    (h1 : fetch c1.id = Except.ok l1) (h2 : fetch c2.id = Except.error e)
    (h3 : fetch c3.id = Except.ok l3) :
    fetchPositionsData fetch nowIso [c1, c2, c3] "all" =
      ((l1.map (formatPosition nowIso c1)
          ++ l3.map (formatPosition nowIso c3)).filter
          fun p => 0 < p.quantity.natAbs,
        [(c1.id, true), (c2.id, false), (c3.id, true)]) := by
  unfold fetchPositionsData
  simp only [fetchLoop, h1, h2, h3, ite_length_map, List.append_nil,
    List.filter, beq_self_eq_true, Bool.true_or, List.isEmpty_cons,
    Bool.false_eq_true, if_false]

/-- First successful raw position list for the C5 witness. -/
def isoPos1 : ApiPosition where
  symbol := some "RELIANCE"
  tradingsymbol := none
  exchange := some "NSE"
  quantity := some 50
  net_quantity := none
  average_price := some 2450
  buy_price := none
  price := none
  current_price := some 2475
  last_price := none
  ltp := none
  pnl := some 1250
  unrealised := none
  pnl_percentage := some 1
  product := some "MIS"

/-- Zero-quantity raw position for the C5 witness (dropped by the filter). -/
def isoPos3a : ApiPosition where
  symbol := some "TCS"
  tradingsymbol := none
  exchange := some "NSE"
  quantity := some 0
  net_quantity := none
  average_price := some 3200
  buy_price := none
  price := none
  current_price := some 3180
  last_price := none
  ltp := none
  pnl := none
  unrealised := none
  pnl_percentage := none
  product := some "MIS"

/-- Short raw position for the C5 witness. -/
def isoPos3b : ApiPosition where
  symbol := some "INFY"
  tradingsymbol := none
  exchange := some "NSE"
  quantity := some (-25)
  net_quantity := none
  average_price := some 1500
  buy_price := none
  price := none
  current_price := some 1490
  last_price := none
  ltp := none
  pnl := some 250
  unrealised := none
  pnl_percentage := none
  product := some "MIS"

/-- Fetch stub for the C5 witness: connection 2 throws, 1 and 3 succeed. -/
def isoFetch : Nat → Except String (List ApiPosition) :=
  fun n =>
    if n = 1 then Except.ok [isoPos1]
    else if n = 2 then Except.error "network error"
    else Except.ok [isoPos3a, isoPos3b]

theorem getPositions_fault_isolation_witness :
    fetchPositionsData isoFetch "t0" [⟨1, "zerodha"⟩, ⟨2, "upstox"⟩, ⟨3, "angel"⟩]
        "all"
      = (([isoPos1].map (formatPosition "t0" ⟨1, "zerodha"⟩)
            ++ [isoPos3a, isoPos3b].map (formatPosition "t0" ⟨3, "angel"⟩)).filter
          (fun p => 0 < p.quantity.natAbs),
        [(1, true), (2, false), (3, true)]) := by
  have h := getPositions_fault_isolation isoFetch "t0"
    ⟨1, "zerodha"⟩ ⟨2, "upstox"⟩ ⟨3, "angel"⟩
    [isoPos1] [isoPos3a, isoPos3b] "network error" rfl rfl rfl
  exact h

/-- Connection with an already-expired token for the C6 counterexample. -/
def expiredConn : BrokerConnection where
  id := 1
  userId := 1
  brokerName := "zerodha"
  connectionName := "c"
  apiKey := "k"
  apiSecret := "s"
  userIdBroker := "u"
  webhookUrl := "w"
  accessToken := some "t"
  publicToken := none
  accessTokenExpiresAt := some 990
  isActive := true

/-- Counterexample to claim C6: for a connection whose expiry lies 10 seconds
in the past (expiry 990, now 1000), `accessTokenExpiresAt - now = -10` is
outside the window 0..3600, yet `listConnections` reports
`needs_token_refresh = true` — the source compares only
`(expiry - now) < 3600` and imposes no lower bound. -/
theorem listConnections_refresh_window_cex :
    ((listConnections [expiredConn] 1 1000).map fun view => view.needs_token_refresh)
        = [true] ∧
    ¬ (0 ≤ (990 : Int) - 1000) := by decide

/-- Claim C6 as amended: for every connection returned by `listConnections`,
`needs_token_refresh` is true exactly when `accessTokenExpiresAt` is set
(non-null and non-zero) and `accessTokenExpiresAt - now < 3600` — with no
lower bound, so an already-expired token also reports true; and for a
connection whose expiry is 30 minutes (1800 seconds) from now the derived
fields are `needs_token_refresh = true` and `token_expired = false`. -/
theorem listConnections_refresh_window_amended (db : DB) (uid : Nat) (now : Int) :
    (∀ view ∈ listConnections db uid now,
      (view.needs_token_refresh = true ↔
        ∃ e, view.access_token_expires_at = some e ∧ e ≠ 0 ∧ e - now < 3600)) ∧
    (0 < now →
      needs_token_refresh (some (now + 1800)) now = true ∧
      token_expired (some (now + 1800)) now = false) := by
  constructor
  · intro view hview
    unfold listConnections at hview
    obtain ⟨c, _, rfl⟩ := List.mem_map.mp hview
    exact needs_token_refresh_true_iff c.accessTokenExpiresAt now
  · intro hnow
    constructor
    · simp only [needs_token_refresh, Bool.and_eq_true, decide_eq_true_eq]
      omega
    · simp only [token_expired, Bool.and_eq_false_iff, decide_eq_false_iff_not]
      omega

/-- Connection expiring 30 minutes after time 1700000000, for the C6 witness. -/
def refreshConn : BrokerConnection where
  id := 2
  userId := 1
  brokerName := "zerodha"
  connectionName := "c"
  apiKey := "k"
  apiSecret := "s"
  userIdBroker := "u"
  webhookUrl := "w"
  accessToken := some "t"
  publicToken := none
  accessTokenExpiresAt := some (1700000000 + 1800)
  isActive := true

theorem listConnections_refresh_window_amended_witness :
    (∀ view ∈ listConnections [refreshConn] 1 1700000000,
      (view.needs_token_refresh = true ↔
        ∃ e, view.access_token_expires_at = some e ∧ e ≠ 0 ∧ e - 1700000000 < 3600)) ∧
    (needs_token_refresh (some (1700000000 + 1800)) 1700000000 = true ∧
      token_expired (some (1700000000 + 1800)) 1700000000 = false) := by
  have h := listConnections_refresh_window_amended [refreshConn] 1 1700000000
  exact ⟨h.1, h.2 (by decide)⟩

/-- Connection owned by user 2, targeted by user 1 in the C7 counterexample. -/
def otherUserConn : BrokerConnection where
  id := 1
  userId := 2
  brokerName := "zerodha"
  connectionName := "c"
  apiKey := "k"
  apiSecret := "s"
  userIdBroker := "u"
  webhookUrl := "w"
  accessToken := some "t"
  publicToken := none
  accessTokenExpiresAt := some 1000
  isActive := true

/-- Counterexample to claim C7: connection 1 exists but belongs to user 2, so
for caller 1 the id does not resolve to an owned connection — yet `disconnect`
responds with success (the route never inspects the affected-row count and has
no 404 branch), leaving the row untouched; it does not fail with NotFound. -/
theorem disconnect_no_notfound_cex :
    disconnect [otherUserConn] 1 1 = ([otherUserConn], ApiResult.ok) ∧
    ApiResult.ok ≠ ApiResult.notFound := by decide

/-- Claim C7 as amended: `disconnect` sets `isActive = false` on the connection
matching both `connectionId` and `userId`, and is idempotent (disconnecting an
already-inactive connection is a no-op success); but when `connectionId` does
not resolve to a connection owned by `userId` (absent, or owned by another
user), the operation still reports success and changes nothing — it never
fails with NotFound. -/
theorem disconnect_amended (db : DB) (uid cid : Nat) :
    (disconnect db uid cid).2 = ApiResult.ok ∧
    (∀ c' ∈ (disconnect db uid cid).1, c'.id = cid → c'.userId = uid →
      c'.isActive = false) ∧
    disconnect (disconnect db uid cid).1 uid cid = disconnect db uid cid ∧
    ((∀ c ∈ db, ¬(c.id = cid ∧ c.userId = uid)) → (disconnect db uid cid).1 = db) := by
  refine ⟨rfl, ?_, ?_, ?_⟩
  · intro c' hc' hid huid
    unfold disconnect disconnectRun at hc'
    obtain ⟨c, hc, rfl⟩ := List.mem_map.mp hc'
    unfold disconnectOne at hid huid ⊢
    by_cases h : (c.id == cid && c.userId == uid) = true
    · rw [if_pos h]
    · rw [if_neg h] at hid huid ⊢
      exact absurd (by simp [hid, huid]) h
  · unfold disconnect disconnectRun
    rw [List.map_map]
    exact congrArg (·, ApiResult.ok)
      (List.map_congr_left fun c _ => disconnectOne_idem uid cid c)
  · intro hnone
    unfold disconnect disconnectRun
    have : ∀ c ∈ db, disconnectOne uid cid c = c := by
      intro c hc
      unfold disconnectOne
      rw [if_neg]
      simp only [Bool.and_eq_true, beq_iff_eq]
      intro ⟨h1, h2⟩
      exact hnone c hc ⟨h1, h2⟩
    calc db.map (disconnectOne uid cid) = db.map id := List.map_congr_left this
    _ = db := List.map_id db

/-- Active connection owned by user 6 for the C7 witness. -/
def ownConn : BrokerConnection where
  id := 4
  userId := 6
  brokerName := "zerodha"
  connectionName := "c"
  apiKey := "k"
  apiSecret := "s"
  userIdBroker := "u"
  webhookUrl := "w"
  accessToken := some "t"
  publicToken := none
  accessTokenExpiresAt := some 1000
  isActive := true

theorem disconnect_amended_witness :
    (disconnect [ownConn] 6 4).2 = ApiResult.ok ∧
    (∀ c' ∈ (disconnect [ownConn] 6 4).1, c'.id = 4 → c'.userId = 6 →
      c'.isActive = false) ∧
    disconnect (disconnect [ownConn] 6 4).1 6 4 = disconnect [ownConn] 6 4 := by
  have h := disconnect_amended [ownConn] 6 4
  exact ⟨h.1, h.2.1, h.2.2.1⟩

/-- Claim C8: `deleteConnection` hard-removes the matching rows and fails with
NotFound exactly when zero rows were affected, regardless of whether the id is
missing or the row is owned by another user; after the call no row matching
both id and owner remains; and when no row with that id belongs to the caller
(e.g. a valid id with the wrong user), it returns NotFound and the table —
hence the record of the true owner — is unchanged. -/
theorem delete_notFound_iff (db : DB) (uid cid : Nat) :
    ((deleteConnection db uid cid).2 = ApiResult.notFound ↔
      (db.filter (matchesIdUser cid uid)).length = 0) ∧
    (∀ c' ∈ (deleteConnection db uid cid).1, ¬(c'.id = cid ∧ c'.userId = uid)) ∧
    ((∀ c ∈ db, c.id = cid → c.userId ≠ uid) →
      (deleteConnection db uid cid).2 = ApiResult.notFound ∧
      (deleteConnection db uid cid).1 = db) := by
  refine ⟨?_, ?_, ?_⟩
  · unfold deleteConnection
    by_cases h : (db.filter (matchesIdUser cid uid)).length = 0
    · rw [if_pos h]; simpa using h
    · rw [if_neg h]
      constructor
      · intro habs; exact absurd habs (by simp)
      · intro habs; exact absurd habs h
  · intro c' hc'
    have hmem : c' ∈ db.filter fun c => !(matchesIdUser cid uid c) := by
      unfold deleteConnection at hc'
      by_cases h : (db.filter (matchesIdUser cid uid)).length = 0
      · rwa [if_pos h] at hc'
      · rwa [if_neg h] at hc'
    have := (List.mem_filter.mp hmem).2
    unfold matchesIdUser at this
    simp only [Bool.not_eq_eq_eq_not, Bool.not_true, Bool.and_eq_false_iff,
      beq_eq_false_iff_ne, ne_eq] at this
    intro ⟨h1, h2⟩
    rcases this with h | h <;> exact h (by simp [h1, h2])
  · intro hnone
    have hzero : (db.filter (matchesIdUser cid uid)).length = 0 := by
      rw [List.length_eq_zero, List.filter_eq_nil_iff]
      intro c hc
      unfold matchesIdUser
      simp only [Bool.and_eq_true, beq_iff_eq, not_and]
      intro h1 h2
      exact hnone c hc h1 h2
    have hself : (db.filter fun c => !(matchesIdUser cid uid c)) = db := by
      rw [List.filter_eq_self]
      intro c hc
      simp only [Bool.not_eq_eq_eq_not, Bool.not_true, Bool.and_eq_false_iff]
      unfold matchesIdUser
      by_cases h1 : c.id = cid
      · simp [matchesIdUser, h1, hnone c hc h1]
      · simp [matchesIdUser, h1]
    unfold deleteConnection
    rw [if_pos hzero]
    exact ⟨rfl, hself⟩

/-- Connection owned by user 8, targeted with the wrong user id in the C8
witness. -/
def victimConn : BrokerConnection where
  id := 5
  userId := 8
  brokerName := "zerodha"
  connectionName := "c"
  apiKey := "k"
  apiSecret := "s"
  userIdBroker := "u"
  webhookUrl := "w"
  accessToken := some "t"
  publicToken := none
  accessTokenExpiresAt := some 1000
  isActive := true

theorem delete_notFound_iff_witness :
    (∀ c ∈ [victimConn], c.id = 5 → c.userId ≠ 9) ∧
    (deleteConnection [victimConn] 9 5).2 = ApiResult.notFound ∧
    (deleteConnection [victimConn] 9 5).1 = [victimConn] := by
  have h := (delete_notFound_iff [victimConn] 9 5).2.2 (by decide)
  exact ⟨by decide, h.1, h.2⟩

/-- Counterexample to claim C9: a successful create for the direct variant
(broker "upstox", which is not "zerodha", so `requiresAuth = false`) inserts a
row without any access token, and the derived `is_authenticated` of the new
row is false — not true as the claim states for the direct variant. -/
theorem create_direct_not_authenticated_cex :
    (connect (specVault "vk") [] 1
        { brokerName := "upstox", apiKey := "ak", apiSecret := "as",
          userIdBroker := "u", connectionName := some "c" } "wh" 0).2
      = ConnectResult.ok 1 false ∧
    ((connect (specVault "vk") [] 1
        { brokerName := "upstox", apiKey := "ak", apiSecret := "as",
          userIdBroker := "u", connectionName := some "c" } "wh" 0).1.map
        is_authenticated) = [false] ∧
    (jsToLower "upstox" == "zerodha") = false := by decide

/-- Claim C9 as amended: immediately after every successful create the derived
`is_authenticated` (access token stored and non-empty) of the new record is
false for BOTH capability variants — the insert never stores an access token;
the direct variant (any broker other than "zerodha" after lower-casing) merely
responds with `requiresAuth = false` without marking the row authenticated,
while the OAuth variant responds `requiresAuth = true`. -/
theorem create_not_authenticated_amended (v : Vault) (db : DB) (uid : Nat)
    (inp : ConnectInput) (wh : String) (nowMs : Nat) (cid : Nat) (ra : Bool)
    (h : (connect v db uid inp wh nowMs).2 = ConnectResult.ok cid ra) :
    ∃ newConn : BrokerConnection,
      (connect v db uid inp wh nowMs).1 = db ++ [newConn] ∧
      newConn.accessToken = none ∧
      is_authenticated newConn = false ∧
      ra = (jsToLower inp.brokerName == "zerodha") := by
  unfold connect at h ⊢
  by_cases hA : inp.brokerName = "" ∨ inp.apiKey = "" ∨ inp.apiSecret = ""
  · rw [if_pos hA] at h; exact absurd h (by simp)
  · rw [if_neg hA] at h ⊢
    by_cases hB : 5 ≤ countActive db uid
    · rw [if_pos hB] at h; exact absurd h (by simp)
    · rw [if_neg hB] at h ⊢
      by_cases hC : v.decrypt (v.encrypt "test") ≠ "test"
      · rw [if_pos hC] at h; exact absurd h (by simp)
      · rw [if_neg hC] at h ⊢
        refine ⟨_, rfl, rfl, rfl, ?_⟩
        injection h with h1 h2
        exact h2.symm

theorem create_not_authenticated_amended_witness :
    (connect (specVault "w9") [] 2
        { brokerName := "angel", apiKey := "ak", apiSecret := "as",
          userIdBroker := "u", connectionName := none } "wh" 5).2
      = ConnectResult.ok 1 false ∧
    ∃ newConn : BrokerConnection,
      (connect (specVault "w9") [] 2
          { brokerName := "angel", apiKey := "ak", apiSecret := "as",
            userIdBroker := "u", connectionName := none } "wh" 5).1
        = [] ++ [newConn] ∧
      newConn.accessToken = none ∧
      is_authenticated newConn = false ∧
      false = (jsToLower "angel" == "zerodha") := by
  have h := create_not_authenticated_amended (specVault "w9") [] 2
    { brokerName := "angel", apiKey := "ak", apiSecret := "as",
      userIdBroker := "u", connectionName := none } "wh" 5 1 false (by decide)
  exact ⟨by decide, h⟩
